import Mathlib

/-!
Shallow embedding of `src/backend/src/controllers/auth.controllers.ts`
(expense-tracker authentication controller).

Modelling conventions:
* JSON Web Tokens are modelled symbolically: a signed token is a record of
  its claim (`id`), the signing key, the issue time and the TTL in seconds.
  `jwtVerify` succeeds exactly when the supplied key equals the signing key
  and the token is unexpired, which is the idealised model of an
  unforgeable signature (`jsonwebtoken` is an external library).
* `jwt.decode` reads the claim without checking the key; on our symbolic
  tokens it always succeeds (an undecodable garbage string has no
  representation, and no claim here depends on one).
* Time is a `Nat` number of seconds passed explicitly to each operation.
* The database is a list of user records; `User.findById` / `findOne` are
  `List.find?`, and mongoose `user.save()` writes the record back by `_id`.
* Process environment (JWT_SECRET, JWT_EXPIRES_IN, COOKIE_EXPIRES_IN,
  NODE_ENV) is a `Config` record.
-/

namespace ExpenseTracker

/-- Symbolic signed JWT: claim `{id}`, signing key, issue time, TTL (s). -/
structure Token where
  id : String
  key : String
  iat : Nat
  ttl : Nat
deriving DecidableEq, Repr

/-- `jwt.verify(token, key)` at time `now`: returns the claim iff the key
matches and the token is unexpired, otherwise fails (throws → `none`). -/
def jwtVerify (t : Token) (key : String) (now : Nat) : Option String :=
  if t.key = key ∧ now < t.iat + t.ttl then some t.id else none

/-- `jwt.decode(token)`: reads the claim without verifying the signature. -/
def jwtDecode (t : Token) : Option String :=
  some t.id

/-- `jwt.sign({id}, key, {expiresIn})` at time `now`. -/
def jwtSign (id key : String) (ttl now : Nat) : Token :=
  { id := id, key := key, iat := now, ttl := ttl }

/-- User record as stored by the credential store.

Modelled from the spec: the mongoose user model
(`../models/user.models`) is not under `src/`; per the spec the password
is stored as a one-way hash, `isEmailVerified` and `twoFactorEnabled`
default to `false`, the role is an enumerated string and
`twoFactorSecret` is optional. -/
structure User where
  _id : String
  name : String
  email : String
  password : String
  isEmailVerified : Bool
  role : String
  twoFactorEnabled : Bool
  twoFactorSecret : Option String
deriving DecidableEq, Repr

/-- The credential store: the list of persisted user records. -/
abbrev Db := List User

/-- `User.findById(id)`. -/
def findById (db : Db) (id : String) : Option User :=
  db.find? (fun u => u._id = id)

/-- `User.findOne({email})`. -/
def findByEmail (db : Db) (email : String) : Option User :=
  db.find? (fun u => u.email = email)

/-- `user.save()`: write the record back over every stored record with the
same `_id`. -/
def saveUser (db : Db) (u : User) : Db :=
  db.map (fun v => if v._id = u._id then u else v)

/-- Process-wide configuration and the two external primitives.

`hashPassword` — modelled from the spec: the user model (not under
`src/`) stores `password` as a one-way hash and offers
`comparePassword`; we model hashing as an explicit function.
`totpCheck secret code` models `speakeasy.totp.verify` with `window: 1`
at the ambient time (external library). -/
structure Config where
  jwt_secret : String
  jwt_expiresIn : Nat
  cookie_expires_in : Nat
  production : Bool
  hashPassword : String → String
  totpCheck : String → String → Bool

/-- `user.comparePassword(password)` — modelled from the spec: bcrypt
comparison of the candidate against the stored hash. -/
def comparePassword (cfg : Config) (u : User) (pw : String) : Bool :=
  cfg.hashPassword pw = u.password

/-- Public projection of a user returned by login / verify2FA. -/
structure PublicUser where
  id : String
  name : String
  email : String
  role : String
deriving DecidableEq, Repr

def User.toPublic (u : User) : PublicUser :=
  { id := u._id, name := u.name, email := u.email, role := u.role }

/-- The `jwt` cookie set by `res.cookie` in `login` / `verify2FA`.
`expires` is in seconds (the source computes milliseconds). -/
structure Cookie where
  value : Token
  expires : Nat
  httpOnly : Bool
  secure : Bool
deriving DecidableEq, Repr

/-- Observable HTTP response: status code, the JSON body fields the
controller can emit (absent fields are `none` / `""`), and the `jwt`
cookie if one was set. `jstatus` is the body key named `status`. -/
structure Resp where
  status : Nat
  jstatus : Option String := none
  message : String := ""
  token : Option Token := none
  tempToken : Option Token := none
  twoFactorEnabled : Option Bool := none
  user : Option PublicUser := none
  secret : Option String := none
  otpauthURL : Option String := none
  cookie : Option Cookie := none
deriving DecidableEq, Repr

/-- Abstraction of `z.string().email()`: the shape check performed by the
external zod library, reduced to the discriminating feature. -/
def emailShape (s : String) : Bool :=
  s.data.contains (Char.ofNat 64)

/-- `signupSchema`: name ≥ 2 chars, valid email, password ≥ 8 chars. -/
def signupValid (name email password : String) : Bool :=
  decide (2 ≤ name.length) && emailShape email && decide (8 ≤ password.length)

/-- `loginSchema`: valid email, password ≥ 8 chars. -/
def loginValid (email password : String) : Bool :=
  emailShape email && decide (8 ≤ password.length)

/-- JSON body of `POST /2fa/confirm` (fields may be absent). -/
structure ConfirmBody where
  token : Option String
  code : Option String
deriving DecidableEq, Repr

/-- `enable2FASchema.parse`: requires a `token` string field and a `code`
string field of length exactly 6; returns the parsed pair or fails. -/
def enable2FAParse (b : ConfirmBody) : Option (String × String) :=
  match b.token, b.code with
  | some t, some c => if c.length = 6 then some (t, c) else none
  | _, _ => none

/-- `signToken(id)`: session token signed with the primary secret,
TTL = `JWT_EXPIRES_IN`. -/
def signToken (cfg : Config) (id : String) (now : Nat) : Token :=
  jwtSign id cfg.jwt_secret cfg.jwt_expiresIn now

/-- Step-up token issued by `login` when 2FA is enabled: signed with the
primary secret alone, claim `id`, expiresIn 5m. -/
def stepUpToken (cfg : Config) (id : String) (now : Nat) : Token :=
  jwtSign id cfg.jwt_secret (5 * 60) now

/-- The session cookie set by `login` and `verify2FA`. -/
def sessionCookie (cfg : Config) (t : Token) (now : Nat) : Cookie :=
  { value := t
    expires := now + cfg.cookie_expires_in * 24 * 60 * 60
    httpOnly := true
    secure := cfg.production }

/-- `signup`: validate, reject duplicate email, create the user (password
stored hashed, defaults unverified / 2FA off), issue the verification
token signed with `jwt_secret + newUser.password` (TTL 1 day) and send it
by email. Returns the response, the new store, and the token carried by
the sent email (`SendEmail` is external; the token is its observable
content). `freshId` is the id the store assigns to the created record. -/
def signup (cfg : Config) (db : Db) (now : Nat) (freshId : String)
    (name email password : String) : Resp × Db × Option Token :=
  if signupValid name email password then
    match findByEmail db email with
    | some _ => ({ status := 400, jstatus := some "false",
                   message := "Email is already registered" }, db, none)
    | none =>
      let newUser : User :=
        { _id := freshId, name := name, email := email
          password := cfg.hashPassword password
          isEmailVerified := false, role := "user"
          twoFactorEnabled := false, twoFactorSecret := none }
      let verificationToken :=
        jwtSign freshId (cfg.jwt_secret ++ newUser.password) 86400 now
      ({ status := 201, jstatus := some "sucess",
         message := "Verification email sent" },
       db ++ [newUser], some verificationToken)
  else
    ({ status := 400, jstatus := some "failed", message := "ZodError" },
     db, none)

/-- `verifyEmail`: decode the token unsafely, look the user up, re-verify
the token with `jwt_secret + user.password`, reject if already verified,
else persist `isEmailVerified = true`. A `jwt.verify` failure lands in
the catch block (400, token invalid or expired). -/
def verifyEmail (cfg : Config) (db : Db) (now : Nat) (token : Token) :
    Resp × Db :=
  match jwtDecode token with
  | none => ({ status := 400, message := "Inavlid token" }, db)
  | some id =>
    match findById db id with
    | none => ({ status := 400, message := "User with token not found" }, db)
    | some user =>
      match jwtVerify token (cfg.jwt_secret ++ user.password) now with
      | none => ({ status := 400, jstatus := some "Failed",
                   message := "Token is invalid, or token is expired" }, db)
      | some _ =>
        if user.isEmailVerified then
          ({ status := 400, message := "Email is already verified" }, db)
        else
          ({ status := 200, jstatus := some "success",
             message := "Email verified successfully" },
           saveUser db { user with isEmailVerified := true })

/-- The 401 response `login` returns for an absent user or a wrong
password. -/
def invalidCredResp : Resp :=
  { status := 401, jstatus := some "failed",
    message := "Invalid email or password" }

/-- `login`: validate shape, look the user up with the password selected,
reject absent user / wrong password identically, reject unverified email,
then either issue a 5-minute step-up token (2FA enabled — no cookie, no
session token) or issue a session token, set the cookie and return the
public user. -/
def login (cfg : Config) (db : Db) (now : Nat) (email password : String) :
    Resp :=
  if loginValid email password then
    match findByEmail db email with
    | none => invalidCredResp
    | some user =>
      if comparePassword cfg user password then
        if user.isEmailVerified then
          if user.twoFactorEnabled then
            { status := 200, message := "2FA required"
              tempToken := some (stepUpToken cfg user._id now)
              twoFactorEnabled := some true }
          else
            let token := signToken cfg user._id now
            { status := 200, jstatus := some "success",
              message := "Login successfull", token := some token
              user := some user.toPublic
              cookie := some (sessionCookie cfg token now) }
        else
          { status := 401, message := "Please verify your email to login" }
      else invalidCredResp
  else
    { status := 400, message := "Validation failed" }

/-- `setup2FA` (runs behind `protect`, so `userId` is the authenticated
identity): reject if 2FA already enabled, else store a freshly generated
TOTP secret (`twoFactorEnabled` untouched) and return it with the
otpauth URL. `freshSecret` is the secret `speakeasy.generateSecret`
draws. -/
def setup2FA (db : Db) (userId freshSecret : String) : Resp × Db :=
  match findById db userId with
  | none => ({ status := 404, message := "User not found" }, db)
  | some user =>
    if user.twoFactorEnabled then
      ({ status := 400, message := "2FA already enabled" }, db)
    else
      ({ status := 200, secret := some freshSecret
         otpauthURL := some ("otpauth://totp/ExpenseTracker:" ++ user.email) },
       saveUser db { user with twoFactorSecret := some freshSecret })

/-- `verify2FA` (login step-up): verify `tempToken` with the primary
secret (failure → catch → 401), look the user up with the secret
selected, require a stored secret, verify the TOTP code, then issue a
session token and set the cookie exactly as direct login does. Never
reads `twoFactorEnabled`, and never writes the store. -/
def verify2FA (cfg : Config) (db : Db) (now : Nat) (tempToken : Token)
    (code : String) : Resp :=
  match jwtVerify tempToken cfg.jwt_secret now with
  | none => { status := 401, message := "Invalid or expired token" }
  | some id =>
    match findById db id with
    | none => { status := 400, jstatus := some "failed",
                message := "Invalid token" }
    | some user =>
      match user.twoFactorSecret with
      | none => { status := 400, jstatus := some "failed",
                  message := "Invalid token" }
      | some secret =>
        if cfg.totpCheck secret code then
          let token := signToken cfg user._id now
          { status := 200, jstatus := some "success", token := some token
            user := some user.toPublic
            cookie := some (sessionCookie cfg token now) }
        else
          { status := 401, message := "Invalid 2fA code" }

/-- `confirm2FA` (runs behind `protect`): parse the body with
`enable2FASchema`, require the user and a pending stored secret, verify
the TOTP code, then persist `twoFactorEnabled = true`. -/
def confirm2FA (cfg : Config) (db : Db) (userId : String)
    (body : ConfirmBody) : Resp × Db :=
  match enable2FAParse body with
  | none => ({ status := 400, message := "Validation failed" }, db)
  | some (_, code) =>
    match findById db userId with
    | none => ({ status := 404,
                 message := "User not found or 2FA not setup" }, db)
    | some user =>
      match user.twoFactorSecret with
      | none => ({ status := 404,
                   message := "User not found or 2FA not setup" }, db)
      | some secret =>
        if cfg.totpCheck secret code then
          ({ status := 200, message := "2FA Enabled successfully" },
           saveUser db { user with twoFactorEnabled := true })
        else
          ({ status := 401, message := "invalid 2FA code" }, db)

/-- `disable2FA` (runs behind `protect`): reject if 2FA is not enabled,
else clear both `twoFactorEnabled` and `twoFactorSecret` in one
persisted save. -/
def disable2FA (db : Db) (userId : String) : Resp × Db :=
  match findById db userId with
  | none => ({ status := 404, message := "User not found" }, db)
  | some user =>
    if user.twoFactorEnabled then
      ({ status := 200, message := "2FA disabled successfully" },
       saveUser db { user with twoFactorEnabled := false
                               twoFactorSecret := none })
    else
      ({ status := 400, message := "2FA not enabled" }, db)

/-- Incoming request as seen by `protect`: `bearerToken` is the token of
a well-formed `Authorization: Bearer <token>` header, `cookieJwt` the
`jwt` cookie. -/
structure ProtectReq where
  bearerToken : Option Token
  cookieJwt : Option Token
deriving DecidableEq, Repr

/-- Outcome of the `protect` middleware: either a rejection response or
`next()` with `req.user` set to the resolved record. -/
inductive ProtectResult where
  | reject (status : Nat) (message : String)
  | proceed (user : User)
deriving DecidableEq, Repr

/-- `protect`: take the Bearer-header token, else the `jwt` cookie;
reject with 401 when no token, when `jwt.verify` with the primary secret
fails (catch), and when the claimed user no longer exists; otherwise
attach the user and call the downstream handler. -/
def protect (cfg : Config) (db : Db) (now : Nat) (req : ProtectReq) :
    ProtectResult :=
  let token := match req.bearerToken with
    | some t => some t
    | none => req.cookieJwt
  match token with
  | none =>
    .reject 401 "You are not logged in!, Please log in to get access"
  | some t =>
    match jwtVerify t cfg.jwt_secret now with
    | none => .reject 401 "Invalid token"
    | some id =>
      match findById db id with
      | none => .reject 401 "User does no longer exist"
      | some user => .proceed user

/-! ### Helper lemmas about the store operations -/

theorem strAppend_left_cancel (s a b : String) (h : s ++ a = s ++ b) :
    a = b := by
  have h2 : (s ++ a).data = (s ++ b).data := congrArg String.data h
  simp [String.data_append] at h2
  exact String.ext h2

theorem findById_cons (x : User) (xs : Db) (i : String) :
    findById (x :: xs) i = if x._id = i then some x else findById xs i := by
  by_cases hx : x._id = i <;>
    simp [findById, List.find?_cons_of_pos, List.find?_cons_of_neg, hx]

theorem saveUser_cons (x : User) (xs : Db) (u : User) :
    saveUser (x :: xs) u = (if x._id = u._id then u else x) :: saveUser xs u :=
  rfl

theorem saveUser_append (a b : Db) (u : User) :
    saveUser (a ++ b) u = saveUser a u ++ saveUser b u :=
  List.map_append _ a b

theorem saveUser_of_fresh (u : User) :
    ∀ db : Db, (∀ v ∈ db, ¬ v._id = u._id) → saveUser db u = db := by
  intro db
  induction db with
  | nil => intro _; rfl
  | cons x xs ih =>
    intro h
    rw [saveUser_cons, if_neg (h x (List.mem_cons_self x xs)),
        ih (fun v hv => h v (List.mem_cons_of_mem x hv))]

theorem findById_saveUser (u' v : User) (i : String) :
    ∀ db : Db, u'._id = i → findById db i = some v →
      findById (saveUser db u') i = some u' := by
  intro db
  induction db with
  | nil => intro _ h; simp [findById] at h
  | cons x xs ih =>
    intro hid h
    rw [findById_cons] at h
    rw [saveUser_cons, findById_cons]
    by_cases hx : x._id = i
    · have hxy : x._id = u'._id := by rw [hid]; exact hx
      rw [if_pos hxy, hid, if_pos rfl]
    · have hxy : ¬ x._id = u'._id := fun hh => hx (by rw [← hid]; exact hh)
      rw [if_neg hxy, if_neg hx]
      rw [if_neg hx] at h
      exact ih hid h

theorem mem_saveUser (db : Db) (u v : User) (h : v ∈ saveUser db u) :
    v = u ∨ v ∈ db := by
  rcases List.mem_map.mp h with ⟨w, hw, hwe⟩
  by_cases hwid : w._id = u._id
  · rw [if_pos hwid] at hwe
    exact Or.inl hwe.symm
  · rw [if_neg hwid] at hwe
    exact Or.inr (hwe ▸ hw)

theorem findById_mem (db : Db) (i : String) (u : User)
    (h : findById db i = some u) : u ∈ db :=
  List.mem_of_find?_eq_some h

theorem findById_id (db : Db) (i : String) (u : User)
    (h : findById db i = some u) : u._id = i := by
  have := List.find?_some h
  simpa using this

/-! ### Claim theorems -/

/-- Claim C2: for a user with `twoFactorEnabled = true` and correct,
verified credentials, `login` responds 200 with only a 5-minute step-up
token and the `twoFactorEnabled` flag; it never sets the `jwt` cookie
and never returns a session token in the body. -/
theorem claim_C2 (cfg : Config) (db : Db) (now : Nat)
    (email password : String) (user : User)
    (hv : loginValid email password = true)
    (hfind : findByEmail db email = some user)
    (hpw : comparePassword cfg user password = true)
    (hver : user.isEmailVerified = true)
    (h2fa : user.twoFactorEnabled = true) :
    login cfg db now email password =
      { status := 200, message := "2FA required"
        tempToken := some (stepUpToken cfg user._id now)
        twoFactorEnabled := some true } ∧
    (login cfg db now email password).cookie = none ∧
    (login cfg db now email password).token = none ∧
    (stepUpToken cfg user._id now).ttl = 5 * 60 := by
  have hL : login cfg db now email password =
      { status := 200, message := "2FA required"
        tempToken := some (stepUpToken cfg user._id now)
        twoFactorEnabled := some true } := by
    simp [login, hv, hfind, hpw, hver, h2fa]
  exact ⟨hL, by rw [hL], by rw [hL], rfl⟩

/-- Concrete configuration used by the closed witness theorems. -/
def cfgW : Config :=
  { jwt_secret := "sec", jwt_expiresIn := 3600, cookie_expires_in := 7
    production := false
    hashPassword := fun p => "#" ++ p
    totpCheck := fun s c => c = s }

/-- Concrete verified user with 2FA enabled, for witnesses. -/
def aliceW : User :=
  { _id := "u1", name := "Alice", email := "a@x.com"
    password := "#pw123456", isEmailVerified := true, role := "user"
    twoFactorEnabled := true, twoFactorSecret := some "123456" }

theorem claim_C2_witness :
    login cfgW [aliceW] 0 "a@x.com" "pw123456" =
      { status := 200, message := "2FA required"
        tempToken := some (stepUpToken cfgW "u1" 0)
        twoFactorEnabled := some true } ∧
    (login cfgW [aliceW] 0 "a@x.com" "pw123456").cookie = none ∧
    (login cfgW [aliceW] 0 "a@x.com" "pw123456").token = none ∧
    (stepUpToken cfgW "u1" 0).ttl = 5 * 60 :=
  claim_C2 cfgW [aliceW] 0 "a@x.com" "pw123456" aliceW (by decide)
    (by decide) (by decide) (by decide) (by decide)

/-- Claim C5: login with a nonexistent email and login with an existing
user but wrong password produce identical responses: status 401 and the
same invalid-credentials body. -/
theorem claim_C5 (cfg : Config) (db : Db) (now : Nat)
    (e1 p1 e2 p2 : String) (u : User)
    (hv1 : loginValid e1 p1 = true) (hv2 : loginValid e2 p2 = true)
    (h1 : findByEmail db e1 = none)
    (h2 : findByEmail db e2 = some u)
    (hpw : comparePassword cfg u p2 = false) :
    login cfg db now e1 p1 = login cfg db now e2 p2 ∧
    login cfg db now e1 p1 = invalidCredResp ∧
    invalidCredResp.status = 401 := by
  have hA : login cfg db now e1 p1 = invalidCredResp := by
    simp [login, hv1, h1]
  have hB : login cfg db now e2 p2 = invalidCredResp := by
    simp [login, hv2, h2, hpw]
  exact ⟨hA.trans hB.symm, hA, rfl⟩

theorem claim_C5_witness :
    login cfgW [aliceW] 0 "b@x.com" "pw123456" =
      login cfgW [aliceW] 0 "a@x.com" "wrongpass" ∧
    login cfgW [aliceW] 0 "b@x.com" "pw123456" = invalidCredResp ∧
    invalidCredResp.status = 401 :=
  claim_C5 cfgW [aliceW] 0 "b@x.com" "pw123456" "a@x.com" "wrongpass"
    aliceW (by decide) (by decide) (by decide) (by decide) (by decide)

/-- Claim C8: the `protect` gate rejects with 401 — returning a rejection
instead of calling the downstream handler — every request with no token
(neither Bearer header nor cookie), an expired token, a token signed with
the wrong key, and a valid token whose user no longer exists. -/
theorem claim_C8 (cfg : Config) (db : Db) (now : Nat) :
    (∀ req : ProtectReq, req.bearerToken = none → req.cookieJwt = none →
      protect cfg db now req =
        .reject 401 "You are not logged in!, Please log in to get access") ∧
    (∀ req : ProtectReq, ∀ t : Token,
      (req.bearerToken = some t ∨
        (req.bearerToken = none ∧ req.cookieJwt = some t)) →
      t.key = cfg.jwt_secret → t.iat + t.ttl ≤ now →
      protect cfg db now req = .reject 401 "Invalid token") ∧
    (∀ req : ProtectReq, ∀ t : Token,
      (req.bearerToken = some t ∨
        (req.bearerToken = none ∧ req.cookieJwt = some t)) →
      ¬ t.key = cfg.jwt_secret →
      protect cfg db now req = .reject 401 "Invalid token") ∧
    (∀ req : ProtectReq, ∀ t : Token,
      (req.bearerToken = some t ∨
        (req.bearerToken = none ∧ req.cookieJwt = some t)) →
      t.key = cfg.jwt_secret → now < t.iat + t.ttl →
      findById db t.id = none →
      protect cfg db now req = .reject 401 "User does no longer exist") := by
  refine ⟨?_, ?_, ?_, ?_⟩
  · intro req hb hc
    simp [protect, hb, hc]
  · intro req t hcarry hkey hexp
    have hjv : jwtVerify t cfg.jwt_secret now = none := by
      simp only [jwtVerify, ite_eq_right_iff]
      rintro ⟨-, h2⟩
      omega
    rcases hcarry with hb | ⟨hb, hc⟩
    · simp [protect, hb, hjv]
    · simp [protect, hb, hc, hjv]
  · intro req t hcarry hkey
    have hjv : jwtVerify t cfg.jwt_secret now = none := by
      simp only [jwtVerify, ite_eq_right_iff]
      rintro ⟨h1, -⟩
      exact absurd h1 hkey
    rcases hcarry with hb | ⟨hb, hc⟩
    · simp [protect, hb, hjv]
    · simp [protect, hb, hc, hjv]
  · intro req t hcarry hkey hexp hfind
    have hjv : jwtVerify t cfg.jwt_secret now = some t.id := by
      simp [jwtVerify, hkey, hexp]
    rcases hcarry with hb | ⟨hb, hc⟩
    · simp [protect, hb, hjv, hfind]
    · simp [protect, hb, hc, hjv, hfind]

theorem claim_C8_witness :
    protect cfgW [aliceW] 10 { bearerToken := none, cookieJwt := none } =
      .reject 401 "You are not logged in!, Please log in to get access" ∧
    protect cfgW [aliceW] 10
      { bearerToken := some (jwtSign "u1" "sec" 5 0), cookieJwt := none } =
      .reject 401 "Invalid token" ∧
    protect cfgW [aliceW] 10
      { bearerToken := none
        cookieJwt := some (jwtSign "u1" "bad" 300 0) } =
      .reject 401 "Invalid token" ∧
    protect cfgW [aliceW] 10
      { bearerToken := some (jwtSign "ghost" "sec" 300 0)
        cookieJwt := none } =
      .reject 401 "User does no longer exist" := by
  have h := claim_C8 cfgW [aliceW] 10
  exact ⟨h.1 _ rfl rfl,
    h.2.1 _ (jwtSign "u1" "sec" 5 0) (Or.inl rfl) (by decide) (by decide),
    h.2.2.1 _ (jwtSign "u1" "bad" 300 0) (Or.inr ⟨rfl, rfl⟩) (by decide),
    h.2.2.2 _ (jwtSign "ghost" "sec" 300 0) (Or.inl rfl) (by decide)
      (by decide) (by decide)⟩

/-- Claim C10: `verify2FA` never reads `twoFactorEnabled`; a user with a
pending unconfirmed secret (`twoFactorEnabled = false`), a valid token
signed with the primary secret and a correct code gets a 200 response
with a session token and the session cookie. -/
theorem claim_C10 (cfg : Config) (db : Db) (now : Nat) (t : Token)
    (code s : String) (user : User)
    (hkey : t.key = cfg.jwt_secret) (hexp : now < t.iat + t.ttl)
    (hfind : findById db t.id = some user)
    (hsec : user.twoFactorSecret = some s)
    (_hen : user.twoFactorEnabled = false)
    (hcode : cfg.totpCheck s code = true) :
    verify2FA cfg db now t code =
      { status := 200, jstatus := some "success"
        token := some (signToken cfg user._id now)
        user := some user.toPublic
        cookie := some (sessionCookie cfg (signToken cfg user._id now) now) } := by
  have hjv : jwtVerify t cfg.jwt_secret now = some t.id := by
    simp [jwtVerify, hkey, hexp]
  simp [verify2FA, hjv, hfind, hsec, hcode]

/-- Concrete user with a pending (unconfirmed) 2FA secret, for
witnesses. -/
def bobW : User :=
  { _id := "u2", name := "Bob", email := "b@x.com"
    password := "#pw123456", isEmailVerified := true, role := "user"
    twoFactorEnabled := false, twoFactorSecret := some "123456" }

theorem claim_C10_witness :
    verify2FA cfgW [bobW] 1 (jwtSign "u2" "sec" 300 0) "123456" =
      { status := 200, jstatus := some "success"
        token := some (signToken cfgW "u2" 1)
        user := some bobW.toPublic
        cookie := some (sessionCookie cfgW (signToken cfgW "u2" 1) 1) } :=
  claim_C10 cfgW [bobW] 1 (jwtSign "u2" "sec" 300 0) "123456" "123456"
    bobW (by decide) (by decide) (by decide) (by decide) (by decide)
    (by decide)

/-- Claim C3: a step-up token and a session token for the same user
agree on the claim, the signing key (the primary secret alone) and the
issue time, differing only in TTL; before expiry the step-up token is
accepted by `protect` as a session token, and a `signToken` session
token is accepted by `verify2FA` as a `tempToken`. -/
theorem claim_C3 (cfg : Config) (db : Db) (id : String) (now : Nat)
    (user : User)
    (hfind : findById db id = some user) :
    (stepUpToken cfg id now).id = (signToken cfg id now).id ∧
    (stepUpToken cfg id now).key = (signToken cfg id now).key ∧
    (stepUpToken cfg id now).key = cfg.jwt_secret ∧
    (stepUpToken cfg id now).iat = (signToken cfg id now).iat ∧
    (stepUpToken cfg id now).ttl = 5 * 60 ∧
    (signToken cfg id now).ttl = cfg.jwt_expiresIn ∧
    (∀ now1, now1 < now + 5 * 60 →
      protect cfg db now1
        { bearerToken := some (stepUpToken cfg id now), cookieJwt := none } =
        .proceed user) ∧
    (∀ now2 s code, now2 < now + cfg.jwt_expiresIn →
      user.twoFactorSecret = some s → cfg.totpCheck s code = true →
      verify2FA cfg db now2 (signToken cfg id now) code =
        { status := 200, jstatus := some "success"
          token := some (signToken cfg user._id now2)
          user := some user.toPublic
          cookie := some (sessionCookie cfg (signToken cfg user._id now2) now2) }) := by
  refine ⟨rfl, rfl, rfl, rfl, rfl, rfl, ?_, ?_⟩
  · intro now1 h1
    have hjv : jwtVerify (stepUpToken cfg id now) cfg.jwt_secret now1 =
        some id := by
      simp [jwtVerify, stepUpToken, jwtSign, h1]
    simp [protect, hjv, hfind]
  · intro now2 s code h2 hs hc
    have hjv : jwtVerify (signToken cfg id now) cfg.jwt_secret now2 =
        some id := by
      simp [jwtVerify, signToken, jwtSign, h2]
    simp [verify2FA, hjv, hfind, hs, hc]

theorem claim_C3_witness :
    (stepUpToken cfgW "u2" 0).key = (signToken cfgW "u2" 0).key ∧
    (stepUpToken cfgW "u2" 0).ttl = 5 * 60 ∧
    (signToken cfgW "u2" 0).ttl = cfgW.jwt_expiresIn ∧
    protect cfgW [bobW] 5
      { bearerToken := some (stepUpToken cfgW "u2" 0), cookieJwt := none } =
      .proceed bobW ∧
    verify2FA cfgW [bobW] 7 (signToken cfgW "u2" 0) "123456" =
      { status := 200, jstatus := some "success"
        token := some (signToken cfgW "u2" 7)
        user := some bobW.toPublic
        cookie := some (sessionCookie cfgW (signToken cfgW "u2" 7) 7) } := by
  have h := claim_C3 cfgW [bobW] "u2" 0 bobW (by decide)
  exact ⟨h.2.1, h.2.2.2.2.1, h.2.2.2.2.2.1,
    h.2.2.2.2.2.2.1 5 (by decide),
    h.2.2.2.2.2.2.2 7 "123456" "123456" (by decide) (by decide) (by decide)⟩

/-- Claim C9: for a user with 2FA enabled, `disable2FA` clears the flag
and the secret in one persisted save, and every later `verify2FA` for
that user fails with the invalid-token response even when the step-up
token is unexpired. -/
theorem claim_C9 (cfg : Config) (db : Db) (uid : String) (user : User)
    (hfind : findById db uid = some user)
    (hen : user.twoFactorEnabled = true) :
    disable2FA db uid =
      ({ status := 200, message := "2FA disabled successfully" },
       saveUser db { user with twoFactorEnabled := false
                               twoFactorSecret := none }) ∧
    findById (disable2FA db uid).2 uid =
      some { user with twoFactorEnabled := false
                       twoFactorSecret := none } ∧
    (∀ now : Nat, ∀ t : Token, ∀ code : String,
      t.key = cfg.jwt_secret → t.id = uid → now < t.iat + t.ttl →
      verify2FA cfg (disable2FA db uid).2 now t code =
        { status := 400, jstatus := some "failed"
          message := "Invalid token" }) := by
  have hid : user._id = uid := findById_id db uid user hfind
  have hD : disable2FA db uid =
      ({ status := 200, message := "2FA disabled successfully" },
       saveUser db { user with twoFactorEnabled := false
                               twoFactorSecret := none }) := by
    simp [disable2FA, hfind, hen]
  have hF : findById
      (saveUser db { user with twoFactorEnabled := false
                               twoFactorSecret := none }) uid =
      some { user with twoFactorEnabled := false
                       twoFactorSecret := none } :=
    findById_saveUser _ user uid db hid hfind
  refine ⟨hD, ?_, ?_⟩
  · rw [hD]
    exact hF
  · intro now t code hkey htid hlt
    have hjv : jwtVerify t cfg.jwt_secret now = some t.id := by
      simp [jwtVerify, hkey, hlt]
    rw [hD]
    simp [verify2FA, hjv, htid, hF]

theorem claim_C9_witness :
    disable2FA [aliceW] "u1" =
      ({ status := 200, message := "2FA disabled successfully" },
       saveUser [aliceW] { aliceW with twoFactorEnabled := false
                                       twoFactorSecret := none }) ∧
    findById (disable2FA [aliceW] "u1").2 "u1" =
      some { aliceW with twoFactorEnabled := false
                         twoFactorSecret := none } ∧
    verify2FA cfgW (disable2FA [aliceW] "u1").2 1
        (jwtSign "u1" "sec" 300 0) "123456" =
      { status := 400, jstatus := some "failed"
        message := "Invalid token" } := by
  have h := claim_C9 cfgW [aliceW] "u1" aliceW (by decide) (by decide)
  exact ⟨h.1, h.2.1,
    h.2.2 1 (jwtSign "u1" "sec" 300 0) "123456" (by decide) (by decide)
      (by decide)⟩

/-- The data-model invariant: a user with 2FA enabled has a stored
secret. -/
def TwoFAInv (db : Db) : Prop :=
  ∀ u ∈ db, u.twoFactorEnabled = true → u.twoFactorSecret.isSome = true

theorem TwoFAInv_saveUser (db : Db) (u : User) (hinv : TwoFAInv db)
    (hu : u.twoFactorEnabled = true → u.twoFactorSecret.isSome = true) :
    TwoFAInv (saveUser db u) := by
  intro v hv hen
  rcases mem_saveUser db u v hv with h | h
  · subst h
    exact hu hen
  · exact hinv v h hen

/-- Claim C4: every store-mutating operation preserves the invariant
that an enabled user has a non-null secret; moreover `confirm2FA` leaves
the store unchanged when there is no stored secret, `setup2FA` only
writes the secret field of the found (not yet enabled) record, and
`disable2FA` clears the flag and the secret together. -/
theorem claim_C4 (cfg : Config) (db : Db) (now : Nat)
    (uid fid sec name email pw : String) (body : ConfirmBody) (tok : Token)
    (hinv : TwoFAInv db) :
    TwoFAInv (signup cfg db now fid name email pw).2.1 ∧
    TwoFAInv (verifyEmail cfg db now tok).2 ∧
    TwoFAInv (setup2FA db uid sec).2 ∧
    TwoFAInv (confirm2FA cfg db uid body).2 ∧
    TwoFAInv (disable2FA db uid).2 ∧
    (∀ user : User, findById db uid = some user →
      user.twoFactorSecret = none →
      (confirm2FA cfg db uid body).2 = db) ∧
    (∀ user : User, findById db uid = some user →
      user.twoFactorEnabled = false →
      (setup2FA db uid sec).2 =
        saveUser db { user with twoFactorSecret := some sec }) ∧
    (∀ user : User, findById db uid = some user →
      user.twoFactorEnabled = true →
      (disable2FA db uid).2 =
        saveUser db { user with twoFactorEnabled := false
                                twoFactorSecret := none }) := by
  refine ⟨?_, ?_, ?_, ?_, ?_, ?_, ?_, ?_⟩
  · unfold signup
    by_cases hv : signupValid name email pw = true
    · rw [if_pos hv]
      cases hfe : findByEmail db email with
      | some u => simpa using hinv
      | none =>
        simp only [hfe]
        intro u hu hen
        rcases List.mem_append.mp hu with h | h
        · exact hinv u h hen
        · simp only [List.mem_singleton] at h
          rw [h] at hen
          simp at hen
    · rw [if_neg hv]
      simpa using hinv
  · unfold verifyEmail
    simp only [jwtDecode]
    cases hfi : findById db tok.id with
    | none => simpa using hinv
    | some user =>
      simp only [hfi]
      cases hjv : jwtVerify tok (cfg.jwt_secret ++ user.password) now with
      | none => simpa using hinv
      | some c =>
        simp only [hjv]
        by_cases hv : user.isEmailVerified = true
        · rw [if_pos hv]
          simpa using hinv
        · rw [if_neg hv]
          exact TwoFAInv_saveUser db _ hinv
            (fun hen => hinv user (findById_mem db tok.id user hfi) hen)
  · unfold setup2FA
    cases hfi : findById db uid with
    | none => simpa using hinv
    | some user =>
      simp only [hfi]
      by_cases he : user.twoFactorEnabled = true
      · rw [if_pos he]
        simpa using hinv
      · rw [if_neg he]
        exact TwoFAInv_saveUser db _ hinv (fun _ => rfl)
  · unfold confirm2FA
    cases hp : enable2FAParse body with
    | none => simpa using hinv
    | some pr =>
      obtain ⟨t0, code0⟩ := pr
      simp only [hp]
      cases hfi : findById db uid with
      | none => simpa using hinv
      | some user =>
        simp only [hfi]
        cases hs : user.twoFactorSecret with
        | none => simpa using hinv
        | some s =>
          simp only [hs]
          by_cases hc : cfg.totpCheck s code0 = true
          · rw [if_pos hc]
            exact TwoFAInv_saveUser db _ hinv (fun _ => rfl)
          · rw [if_neg hc]
            simpa using hinv
  · unfold disable2FA
    cases hfi : findById db uid with
    | none => simpa using hinv
    | some user =>
      simp only [hfi]
      by_cases he : user.twoFactorEnabled = true
      · rw [if_pos he]
        apply TwoFAInv_saveUser db _ hinv
        intro hen
        simp at hen
      · rw [if_neg he]
        simpa using hinv
  · intro user hfi hsec
    cases hp : enable2FAParse body with
    | none => simp [confirm2FA, hp]
    | some pr =>
      obtain ⟨t0, code0⟩ := pr
      simp [confirm2FA, hp, hfi, hsec]
  · intro user hfi hen
    simp [setup2FA, hfi, hen]
  · intro user hfi hen
    simp [disable2FA, hfi, hen]

theorem claim_C4_witness :
    TwoFAInv [aliceW] ∧
    TwoFAInv (signup cfgW [aliceW] 0 "u9" "Ann" "c@x.com" "longpass1").2.1 ∧
    TwoFAInv (verifyEmail cfgW [aliceW] 0 (jwtSign "u1" "sec" 300 0)).2 ∧
    TwoFAInv (setup2FA [aliceW] "u1" "s").2 ∧
    TwoFAInv (confirm2FA cfgW [aliceW] "u1"
      { token := some "x", code := some "123456" }).2 ∧
    TwoFAInv (disable2FA [aliceW] "u1").2 := by
  have h := claim_C4 cfgW [aliceW] 0 "u1" "u9" "s" "Ann" "c@x.com"
    "longpass1" { token := some "x", code := some "123456" }
    (jwtSign "u1" "sec" 300 0) (by unfold TwoFAInv; decide)
  exact ⟨by unfold TwoFAInv; decide, h.1, h.2.1, h.2.2.1, h.2.2.2.1,
    h.2.2.2.2.1⟩

/-- Characterisation of a successful signup: the store gains the fresh
record and the emailed token is signed with the primary secret
concatenated with the password hash at issue time. -/
theorem signup_success (cfg : Config) (db : Db) (now : Nat)
    (fid name email pw : String) (resp : Resp) (db1 : Db) (vtok : Token)
    (hsign : signup cfg db now fid name email pw = (resp, db1, some vtok)) :
    db1 = db ++ [{ _id := fid, name := name, email := email
                   password := cfg.hashPassword pw
                   isEmailVerified := false, role := "user"
                   twoFactorEnabled := false, twoFactorSecret := none }] ∧
    vtok = jwtSign fid (cfg.jwt_secret ++ cfg.hashPassword pw) 86400 now := by
  unfold signup at hsign
  by_cases hv : signupValid name email pw = true
  · rw [if_pos hv] at hsign
    cases hfe : findByEmail db email with
    | some u =>
      rw [hfe] at hsign
      simp at hsign
    | none =>
      rw [hfe] at hsign
      simp only [Prod.mk.injEq, Option.some.injEq] at hsign
      obtain ⟨-, h2, h3⟩ := hsign
      exact ⟨h2.symm, h3.symm⟩
  · rw [if_neg hv] at hsign
    simp at hsign

theorem findById_append_fresh (db : Db) (u : User) (i : String)
    (hfresh : ∀ v ∈ db, ¬ v._id = i) (hu : u._id = i) :
    findById (db ++ [u]) i = some u := by
  have hnone : List.find? (fun v => decide (v._id = i)) db = none :=
    List.find?_eq_none.mpr (by intro x hx; simpa using hfresh x hx)
  show List.find? (fun v => decide (v._id = i)) (db ++ [u]) = some u
  rw [List.find?_append, hnone]
  simp [List.find?, hu]

/-- Claim C1: when the stored password hash at use time differs from the
hash the signup verification token was keyed to, `verifyEmail` takes the
invalid-token path (400) and returns the store unchanged, so
`isEmailVerified` is not set. -/
theorem claim_C1 (cfg : Config) (db db2 : Db) (now now2 : Nat)
    (fid name email pw : String) (resp : Resp) (db1 : Db) (vtok : Token)
    (user : User)
    (hsign : signup cfg db now fid name email pw = (resp, db1, some vtok))
    (hfind : findById db2 vtok.id = some user)
    (hchanged : ¬ user.password = cfg.hashPassword pw) :
    verifyEmail cfg db2 now2 vtok =
      ({ status := 400, jstatus := some "Failed"
         message := "Token is invalid, or token is expired" }, db2) := by
  obtain ⟨-, hvt⟩ :=
    signup_success cfg db now fid name email pw resp db1 vtok hsign
  have hkeys : ¬ vtok.key = cfg.jwt_secret ++ user.password := by
    rw [hvt]
    simp only [jwtSign]
    intro h
    exact hchanged (strAppend_left_cancel _ _ _ h).symm
  have hjv : jwtVerify vtok (cfg.jwt_secret ++ user.password) now2 = none := by
    simp only [jwtVerify, ite_eq_right_iff]
    rintro ⟨h1, -⟩
    exact absurd h1 hkeys
  simp [verifyEmail, jwtDecode, hfind, hjv]

/-- The record signup creates for Ann, before any password change. -/
def annW : User :=
  { _id := "u3", name := "Ann", email := "ann@x.com"
    password := "#longpass1", isEmailVerified := false, role := "user"
    twoFactorEnabled := false, twoFactorSecret := none }

/-- Ann after an out-of-band password change (different stored hash). -/
def annChangedW : User :=
  { _id := "u3", name := "Ann", email := "ann@x.com"
    password := "#newpassword", isEmailVerified := false, role := "user"
    twoFactorEnabled := false, twoFactorSecret := none }

theorem claim_C1_witness :
    verifyEmail cfgW [annChangedW] 5
        (jwtSign "u3" "sec#longpass1" 86400 0) =
      ({ status := 400, jstatus := some "Failed"
         message := "Token is invalid, or token is expired" },
       [annChangedW]) :=
  claim_C1 cfgW [] [annChangedW] 0 5 "u3" "Ann" "ann@x.com" "longpass1"
    { status := 201, jstatus := some "sucess"
      message := "Verification email sent" }
    [annW] (jwtSign "u3" "sec#longpass1" 86400 0) annChangedW
    (by decide) (by decide) (by decide)

/-- Claim C6: the verification token issued at signup verifies exactly
once: the first unexpired use flips `isEmailVerified` false → true and
persists it, and any later use of the same unexpired token fails with
the already-verified response and leaves the store unchanged. -/
theorem claim_C6 (cfg : Config) (db : Db) (now now1 now2 : Nat)
    (fid name email pw : String) (resp : Resp) (db1 : Db) (vtok : Token)
    (hsign : signup cfg db now fid name email pw = (resp, db1, some vtok))
    (hfresh : ∀ v ∈ db, ¬ v._id = fid)
    (h1 : now1 < now + 86400) (h2 : now2 < now + 86400) :
    ∃ newUser : User,
      db1 = db ++ [newUser] ∧
      newUser.isEmailVerified = false ∧
      verifyEmail cfg db1 now1 vtok =
        ({ status := 200, jstatus := some "success"
           message := "Email verified successfully" },
         db ++ [{ newUser with isEmailVerified := true }]) ∧
      verifyEmail cfg (db ++ [{ newUser with isEmailVerified := true }])
          now2 vtok =
        ({ status := 400, message := "Email is already verified" },
         db ++ [{ newUser with isEmailVerified := true }]) := by
  obtain ⟨hdb1, hvt⟩ :=
    signup_success cfg db now fid name email pw resp db1 vtok hsign
  refine ⟨{ _id := fid, name := name, email := email
            password := cfg.hashPassword pw
            isEmailVerified := false, role := "user"
            twoFactorEnabled := false, twoFactorSecret := none },
          hdb1, rfl, ?_, ?_⟩
  · have hvid : vtok.id = fid := by rw [hvt]; rfl
    have hfindN : findById
        (db ++ [{ _id := fid, name := name, email := email
                  password := cfg.hashPassword pw
                  isEmailVerified := false, role := "user"
                  twoFactorEnabled := false,
                  twoFactorSecret := none }]) fid =
        some { _id := fid, name := name, email := email
               password := cfg.hashPassword pw
               isEmailVerified := false, role := "user"
               twoFactorEnabled := false, twoFactorSecret := none } :=
      findById_append_fresh db _ fid hfresh rfl
    have hjv1 : jwtVerify vtok (cfg.jwt_secret ++ cfg.hashPassword pw)
        now1 = some fid := by
      rw [hvt]
      simp [jwtVerify, jwtSign, h1]
    have hsave : saveUser
        (db ++ [{ _id := fid, name := name, email := email
                  password := cfg.hashPassword pw
                  isEmailVerified := false, role := "user"
                  twoFactorEnabled := false, twoFactorSecret := none }])
        { _id := fid, name := name, email := email
          password := cfg.hashPassword pw
          isEmailVerified := true, role := "user"
          twoFactorEnabled := false, twoFactorSecret := none } =
        db ++ [{ _id := fid, name := name, email := email
                 password := cfg.hashPassword pw
                 isEmailVerified := true, role := "user"
                 twoFactorEnabled := false, twoFactorSecret := none }] := by
      rw [saveUser_append]
      rw [saveUser_of_fresh _ db (fun v hv => hfresh v hv)]
      simp [saveUser]
    rw [hdb1]
    simp [verifyEmail, jwtDecode, hvid, hfindN, hjv1, hsave]
  · have hvid : vtok.id = fid := by rw [hvt]; rfl
    have hfindV : findById
        (db ++ [{ _id := fid, name := name, email := email
                  password := cfg.hashPassword pw
                  isEmailVerified := true, role := "user"
                  twoFactorEnabled := false,
                  twoFactorSecret := none }]) fid =
        some { _id := fid, name := name, email := email
               password := cfg.hashPassword pw
               isEmailVerified := true, role := "user"
               twoFactorEnabled := false, twoFactorSecret := none } :=
      findById_append_fresh db _ fid hfresh rfl
    have hjv2 : jwtVerify vtok (cfg.jwt_secret ++ cfg.hashPassword pw)
        now2 = some fid := by
      rw [hvt]
      simp [jwtVerify, jwtSign, h2]
    simp [verifyEmail, jwtDecode, hvid, hfindV, hjv2]

theorem claim_C6_witness :
    ∃ newUser : User,
      (signup cfgW [] 0 "u3" "Ann" "ann@x.com" "longpass1").2.1 =
        [] ++ [newUser] ∧
      newUser.isEmailVerified = false ∧
      verifyEmail cfgW (signup cfgW [] 0 "u3" "Ann" "ann@x.com"
          "longpass1").2.1 1 (jwtSign "u3" "sec#longpass1" 86400 0) =
        ({ status := 200, jstatus := some "success"
           message := "Email verified successfully" },
         [] ++ [{ newUser with isEmailVerified := true }]) ∧
      verifyEmail cfgW ([] ++ [{ newUser with isEmailVerified := true }])
          2 (jwtSign "u3" "sec#longpass1" 86400 0) =
        ({ status := 400, message := "Email is already verified" },
         [] ++ [{ newUser with isEmailVerified := true }]) :=
  claim_C6 cfgW [] 0 1 2 "u3" "Ann" "ann@x.com" "longpass1"
    { status := 201, jstatus := some "sucess"
      message := "Verification email sent" }
    (signup cfgW [] 0 "u3" "Ann" "ann@x.com" "longpass1").2.1
    (jwtSign "u3" "sec#longpass1" 86400 0)
    (by decide) (by intro v hv; cases hv) (by decide) (by decide)

/-- Claim C7 counterexample: a confirm request whose body holds only the
correct 6-digit `code` — no `token` field — is rejected with 400 by
`enable2FASchema` validation and does not enable 2FA, although the
authenticated user has a pending secret and the code is correct. -/
theorem claim_C7_counterexample :
    cfgW.totpCheck "123456" "123456" = true ∧
    bobW.twoFactorSecret = some "123456" ∧
    ("123456" : String).length = 6 ∧
    bobW.twoFactorEnabled = false ∧
    confirm2FA cfgW [bobW] "u2" { token := none, code := some "123456" } =
      ({ status := 400, message := "Validation failed" }, [bobW]) := by
  decide

/-- Claim C7 (amended): `enable2FASchema` also demands a `token` string
field in the body, whose value `confirm2FA` never uses. With a body of
shape `{token, code}` and a correct 6-digit code for the pending stored
secret the request succeeds with 200 and persists
`twoFactorEnabled = true`; without a pending secret it fails 404
(NotSetup), with a wrong code it fails 401 (InvalidCode), and a body
lacking the `token` field fails validation with 400. -/
theorem claim_C7_amended (cfg : Config) (db : Db)
    (uid tok code s : String) (user : User)
    (hlen : code.length = 6)
    (hfind : findById db uid = some user) :
    (user.twoFactorSecret = some s → cfg.totpCheck s code = true →
      confirm2FA cfg db uid { token := some tok, code := some code } =
        ({ status := 200, message := "2FA Enabled successfully" },
         saveUser db { user with twoFactorEnabled := true })) ∧
    (user.twoFactorSecret = none →
      confirm2FA cfg db uid { token := some tok, code := some code } =
        ({ status := 404,
           message := "User not found or 2FA not setup" }, db)) ∧
    (user.twoFactorSecret = some s → cfg.totpCheck s code = false →
      confirm2FA cfg db uid { token := some tok, code := some code } =
        ({ status := 401, message := "invalid 2FA code" }, db)) ∧
    (∀ b : ConfirmBody, b.token = none →
      confirm2FA cfg db uid b =
        ({ status := 400, message := "Validation failed" }, db)) := by
  have hp : enable2FAParse { token := some tok, code := some code } =
      some (tok, code) := by
    simp [enable2FAParse, hlen]
  refine ⟨?_, ?_, ?_, ?_⟩
  · intro hs hc
    simp [confirm2FA, hp, hfind, hs, hc]
  · intro hs
    simp [confirm2FA, hp, hfind, hs]
  · intro hs hc
    simp [confirm2FA, hp, hfind, hs, hc]
  · intro b hb
    have hpn : enable2FAParse b = none := by
      simp [enable2FAParse, hb]
    simp [confirm2FA, hpn]

theorem claim_C7_witness :
    confirm2FA cfgW [bobW] "u2"
        { token := some "x", code := some "123456" } =
      ({ status := 200, message := "2FA Enabled successfully" },
       saveUser [bobW] { bobW with twoFactorEnabled := true }) ∧
    confirm2FA cfgW [bobW] "u2"
        { token := none, code := some "123456" } =
      ({ status := 400, message := "Validation failed" }, [bobW]) := by
  have h := claim_C7_amended cfgW [bobW] "u2" "x" "123456" "123456" bobW
    (by decide) (by decide)
  exact ⟨h.1 (by decide) (by decide), h.2.2.2 _ (by decide)⟩

end ExpenseTracker
